import Mathlib

/-!
# Verification of `tap-channeldock`'s incremental extraction engine

A shallow embedding, in Lean 4, of the extraction engine of the
`tap-channeldock` repository:

* `src/tap_channeldock/client.py` — `ChanneldockPaginator.get_next`,
  `ChanneldockStream.parse_response`, `ChanneldockStream.validate_response`,
  `ChanneldockStream.backoff_wait_generator`, and the base
  `ChanneldockStream.get_url_params`;
* `src/tap_channeldock/streams.py` — `get_url_params` of `ProductsStream`,
  `OrdersStream` and `DeliveriesStream`;
* `src/tap_channeldock/tap.py` — `STREAM_TYPES` and
  `TapChanneldock.discover_streams`.

Conventions of the embedding:

* JSON values are modelled by the inductive `Json`; numeric JSON values are
  modelled as integers (the fields the engine inspects — counts — are
  integers).
* Side effects are made explicit: the wall clock read by `time.time()` /
  `datetime.now(timezone.utc)` becomes an explicit argument (`now`), and the
  `time.sleep` calls performed by `validate_response` are collected, in
  order, in the `sleeps` field of its result.
* Raising `RetriableAPIError` / `FatalAPIError` (and falling through without
  raising) is modelled by the `Outcome` type; an uncaught Python exception
  (`int()` on a malformed header) is the `raisedValueError` outcome.
* Python truthiness on optional strings (`if value:`) is `truthy`, Python's
  `int(...)` on a string is `pyInt`, Python's `len(...)` on a JSON value is
  `pyLen` (`none` = `TypeError`), and Python `==` against the literals `0`
  and `"error"` are `jsonEqInt` / `jsonEqStr`.
-/

/-- JSON values as parsed by `response.json()`.  Numbers are modelled as
integers; object fields as an association list in document order. -/
inductive Json where
  | null
  | bool (b : Bool)
  | num (n : Int)
  | str (s : String)
  | arr (elems : List Json)
  | obj (fields : List (String × Json))

/-- Python truthiness for an optional string (`if value:` where `value` is
`None` or a `str`): `None` and the empty string are falsy.  Returns the
string when it is truthy. -/
def truthy : Option String → Option String
  | some s => if s = "" then none else some s
  | none => none

/-- Python `int(s)` for a string `s`: optional surrounding whitespace, an
optional sign, then decimal digits; anything else raises `ValueError`
(modelled as `none`). -/
def pyInt (s : String) : Option Int :=
  let t := ((s.data.dropWhile Char.isWhitespace).reverse.dropWhile Char.isWhitespace).reverse
  let neg := t.head? = some (Char.ofNat 45)
  let core := match t with
    | c :: rest => if c = Char.ofNat 45 ∨ c = Char.ofNat 43 then rest else t
    | [] => []
  if core ≠ [] ∧ core.all Char.isDigit then
    let n : Nat := core.foldl (fun acc c => acc * 10 + (c.toNat - 48)) 0
    some (if neg then -(n : Int) else (n : Int))
  else
    none

/-- Python `value == 0` where `value` is a decoded JSON value: an int equal
to `0`, or `False` (Python `bool` is an `int` subtype), compare equal to
`0`; every other JSON value does not. -/
def jsonEqInt (j : Json) (k : Int) : Bool :=
  match j with
  | .num n => n == k
  | .bool b => (if b then (1 : Int) else 0) == k
  | _ => false

/-- Python `value == s` against a string literal: only a string with the
same contents compares equal. -/
def jsonEqStr (j : Json) (s : String) : Bool :=
  match j with
  | .str t => t == s
  | _ => false

/-- Python `len(value)` on a decoded JSON value: defined for lists, strings
and mappings; `TypeError` (modelled `none`) otherwise. -/
def pyLen : Json → Option Nat
  | .arr xs => some xs.length
  | .str s => some s.length
  | .obj fs => some fs.length
  | _ => none

/-- `ChanneldockPaginator.PAGE_SIZE` (`client.py` line 25). -/
def PAGE_SIZE : Nat := 50

/-- Result of one `ChanneldockPaginator.get_next` call: a next page number,
`None` (pagination exhausted), or an uncaught `TypeError` from `len(...)`. -/
inductive NextResult where
  | next (n : Int)
  | done
  | tyError
deriving DecidableEq

/-- `ChanneldockPaginator.get_next` (`client.py` lines 36-64).

`page` is the paginator's `self._page` counter (initialised to the start
value `1` and mirroring the current page cursor); `body` is the result of
`response.json()`, `none` when decoding raised.  The second component of
the result is the paginator's `self._page` after the call (it is mutated
only on the `return self._page + 1` path). -/
def ChanneldockPaginator_get_next (page : Int) (body : Option Json) :
    NextResult × Int :=
  match body with
  | none => (.done, page)
  | some data =>
    match data with
    | .obj fields =>
      let products_count := (fields.lookup "products_count").getD (Json.num 0)
      let products := (fields.lookup "products").getD (Json.arr [])
      if jsonEqInt products_count 0 then (.done, page)
      else
        match pyLen products with
        | none => (.tyError, page)
        | some l => if l < PAGE_SIZE then (.done, page) else (.next (page + 1), page + 1)
    | _ => (.next (page + 1), page + 1)

/-- Result of `ChanneldockStream.parse_response`: a JSON-decode failure
(logged, no records), an API-reported error carrying the logged message
(`data.get("message", "Unknown error")`), or the extracted records. -/
inductive ParseResult where
  | decodeError
  | apiError (message : Json)
  | records (rs : List Json)

/-- The record sequence a `ParseResult` yields: both error outcomes yield
nothing. -/
def recordsOf : ParseResult → List Json
  | .decodeError => []
  | .apiError _ => []
  | .records rs => rs

/-- The `extract_jsonpath` collaborator (an external, pure helper per the
spec) applied to the JSONPath shapes this tap uses: `records_field = some f`
models `"$.f[*]"` (the concrete streams) and `none` models `"$[*]"` (the
base class).  `[*]` yields the elements of a list, the values of a mapping,
and nothing from a scalar. -/
def extract_jsonpath_records (records_field : Option String) (data : Json) :
    List Json :=
  let target := match records_field with
    | some f => match data with
      | .obj fs => (fs.lookup f).getD .null
      | _ => .null
    | none => data
  match target with
  | .arr xs => xs
  | .obj fs => fs.map (fun p => p.2)
  | _ => []

/-- `ChanneldockStream.parse_response` (`client.py` lines 136-164).

`body` is `none` when `response.json()` raised `JSONDecodeError` (caught:
an error is logged and the generator returns without yielding).  A mapping
whose `"response"` field equals `"error"` is logged with its
`"message"` (default `"Unknown error"`) and yields nothing.  Otherwise the
records extracted by the stream's JSONPath are yielded. -/
def parse_response (records_field : Option String) (body : Option Json) :
    ParseResult :=
  match body with
  | none => .decodeError
  | some data =>
    match data with
    | .obj fs =>
      if (match fs.lookup "response" with
          | some v => jsonEqStr v "error"
          | none => false) then
        .apiError ((fs.lookup "message").getD (Json.str "Unknown error"))
      else
        .records (extract_jsonpath_records records_field (.obj fs))
    | _ => .records (extract_jsonpath_records records_field data)

/-- `REQUEST_DELAY_SECONDS` (`client.py` line 16). -/
def REQUEST_DELAY_SECONDS : Rat := 1/2

/-- How `validate_response` returns: falling through (no exception, `OK`),
raising `RetriableAPIError` (`RETRY`), raising `FatalAPIError` (`FATAL`),
or letting an uncaught `ValueError` from `int(...)` escape. -/
inductive Outcome where
  | ok
  | retry
  | fatal
  | raisedValueError
deriving DecidableEq

/-- An HTTP response as `validate_response` inspects it: the status code
and the response headers. -/
structure HttpResponse where
  status : Int
  headers : List (String × String)
deriving DecidableEq

/-- `response.headers.get(name)`. -/
def getHeader (resp : HttpResponse) (name : String) : Option String :=
  resp.headers.lookup name

/-- What one `validate_response` call did: every `time.sleep` duration in
seconds, in call order, and how the call returned. -/
structure ValidateResult where
  sleeps : List Rat
  outcome : Outcome
deriving DecidableEq

/-- The status-code checks of `ChanneldockStream.validate_response`
(`client.py` lines 196-231), performed after the rate-limit-header
handling; `sleeps` are the sleeps already performed, `now` is
`int(time.time())`.

* status `429`: a wait is computed from `X-RateLimit-Reset` minus `now`
  when that header is truthy and parses (`int` failures are caught),
  slept only when positive and capped at `3600`; a missing or unparseable
  header sleeps the fixed default `60`; then `RetriableAPIError` is raised.
* `5xx` raises `RetriableAPIError`; `4xx` (other than 429) raises
  `FatalAPIError`; anything else falls through. -/
def statusChecks (resp : HttpResponse) (now : Int) (sleeps : List Rat) :
    ValidateResult :=
  if resp.status = 429 then
    let sleeps2 :=
      match truthy (getHeader resp "X-RateLimit-Reset") with
      | some s =>
        match pyInt s with
        | some r =>
          let wait_seconds := r - now
          if wait_seconds > 0 then sleeps ++ [((min wait_seconds 3600 : Int) : Rat)]
          else sleeps
        | none => sleeps ++ [60]
      | none => sleeps ++ [60]
    { sleeps := sleeps2, outcome := .retry }
  else if 500 ≤ resp.status ∧ resp.status < 600 then
    { sleeps := sleeps, outcome := .retry }
  else if 400 ≤ resp.status ∧ resp.status < 500 then
    { sleeps := sleeps, outcome := .fatal }
  else
    { sleeps := sleeps, outcome := .ok }

/-- `ChanneldockStream.validate_response` (`client.py` lines 166-231).

First the fixed inter-request floor `time.sleep(REQUEST_DELAY_SECONDS)`;
then, when `X-RateLimit-Remaining` is truthy, `remaining =
int(rate_limit_remaining)` (an unparseable value lets `ValueError`
escape), and the source's

    if remaining < 100: time.sleep(5)
    elif remaining < 50: time.sleep(30)

(the `elif` arm is translated literally); finally the status checks. -/
def validate_response (resp : HttpResponse) (now : Int) : ValidateResult :=
  let sleeps0 : List Rat := [REQUEST_DELAY_SECONDS]
  match truthy (getHeader resp "X-RateLimit-Remaining") with
  | some s =>
    match pyInt s with
    | none => { sleeps := sleeps0, outcome := .raisedValueError }
    | some remaining =>
      let sleeps1 :=
        if remaining < 100 then sleeps0 ++ [5]
        else if remaining < 50 then sleeps0 ++ [30]
        else sleeps0
      statusChecks resp now sleeps1
  | none => statusChecks resp now sleeps0

/-- The wait-time table of `backoff_wait_generator` (`client.py` line 258). -/
def backoff_wait_times : List Nat := [30, 60, 120, 240]

/-- `ChanneldockStream.backoff_wait_generator` (`client.py` lines 251-263)
as the function giving the generator's `n`-th yielded value (0-based): it
yields the table entries in order, then yields `240` forever. -/
def backoff_wait_generator (n : Nat) : Nat :=
  backoff_wait_times.getD n 240

/-- A URL query-parameter value: the `params` dicts hold the page number as
a Python `int` and everything else as `str`. -/
inductive Param where
  | pint (n : Int)
  | pstr (s : String)
deriving DecidableEq

/-- The tap configuration fields the engine reads (`tap.py`
`config_jsonschema` plus the `delivery_type` key read by
`DeliveriesStream`); optional fields absent from the config are `none`. -/
structure Config where
  api_key : String
  api_secret : String
  start_date : Option String
  delivery_type : Option String

/-- Python `next_page_token or 1`: `None` (and the falsy `0`) become `1`. -/
def pageOr1 (next_page_token : Option Int) : Int :=
  match next_page_token with
  | some n => if n = 0 then 1 else n
  | none => 1

/-- `start_date.split("T")[0] if "T" in start_date else start_date`
(`client.py` line 131). -/
def datePart (s : String) : String :=
  if s.data.contains 'T' then ((s.splitOn "T").headD s) else s

/-- `ChanneldockStream.get_url_params` (`client.py` lines 109-134): the
`page` parameter, and `date_from` when the configured `start_date` and the
stream's `replication_key` are both truthy. -/
def ChanneldockStream_get_url_params (replication_key : Option String)
    (cfg : Config) (next_page_token : Option Int) : List (String × Param) :=
  let params : List (String × Param) := [("page", .pint (pageOr1 next_page_token))]
  match truthy cfg.start_date, truthy replication_key with
  | some sd, some _ => params ++ [("date_from", .pstr (datePart sd))]
  | _, _ => params

/-- `ProductsStream.get_url_params` (`streams.py` lines 90-125).

`bookmark` is the value returned by the singer-sdk collaborator
`get_starting_replication_key_value(context)` (`none` on a first-ever
sync); `now` is the string produced by
`datetime.now(timezone.utc).strftime("%Y-%m-%d %H:%M:%S")` — the wall
clock is read inside this call, so `now` is the reading at the moment this
page's parameters are built (it is also stored into the mutable
`_current_end_date`). -/
def ProductsStream_get_url_params (cfg : Config) (bookmark : Option String)
    (next_page_token : Option Int) (now : String) : List (String × Param) :=
  let params := ChanneldockStream_get_url_params (some "stocking_date") cfg next_page_token
  let params := params ++ [("sort_attr", .pstr "stocking_date"), ("sort_dir", .pstr "ASC")]
  let params := match truthy bookmark with
    | some b => params ++ [("start_date", .pstr b)]
    | none => params
  params ++ [("end_date", .pstr now)]

/-- `OrdersStream.get_url_params` (`streams.py` lines 345-382): builds its
dict from scratch (no call to the base class); `bookmark` and `now` as in
`ProductsStream_get_url_params` (`now` is stored into `_current_end_date`
and sent as `updated_at_to`). -/
def OrdersStream_get_url_params (bookmark : Option String)
    (next_page_token : Option Int) (now : String) : List (String × Param) :=
  let params : List (String × Param) :=
    [("page", .pint (pageOr1 next_page_token)), ("order_status", .pstr "ALL"),
     ("sort_attr", .pstr "updated_at"), ("sort_dir", .pstr "asc")]
  let params := match truthy bookmark with
    | some b => params ++ [("updated_at_from", .pstr b)]
    | none => params
  params ++ [("updated_at_to", .pstr now)]

/-- `DeliveriesStream.get_url_params` (`streams.py` lines 490-532): builds
its dict from scratch; the bookmark is sent as `updated_at`, the configured
`delivery_type` is forwarded when truthy, and the wall-clock reading is
stored into `_current_end_date` but added to no parameter. -/
def DeliveriesStream_get_url_params (cfg : Config) (bookmark : Option String)
    (next_page_token : Option Int) : List (String × Param) :=
  let params : List (String × Param) :=
    [("page", .pint (pageOr1 next_page_token)),
     ("sort_attr", .pstr "updated_at"), ("sort_dir", .pstr "ASC")]
  let params := match truthy bookmark with
    | some b => params ++ [("updated_at", .pstr b)]
    | none => params
  match truthy cfg.delivery_type with
  | some dt => params ++ [("delivery_type", .pstr dt)]
  | none => params

/-- One incremental products sync: the replication driver issues one
request per page with consecutive 1-indexed page numbers (the
`ChanneldockPaginator` cursor), invoking `ProductsStream.get_url_params`
once per page; the `datetime.now(timezone.utc)` inside is evaluated at
each invocation.  `clocks` lists the formatted clock reading observed at
each page's parameter build; the result is each page's parameter dict. -/
def products_sync_page_params (cfg : Config) (bookmark : Option String)
    (clocks : List String) : List (List (String × Param)) :=
  ((List.range clocks.length).zip clocks).map
    (fun pc => ProductsStream_get_url_params cfg bookmark (some ((pc.1 : Int) + 1)) pc.2)

/-- The entities defined in `streams.py`. -/
inductive StreamType where
  | products
  | suppliers
  | orders
  | deliveries
deriving DecidableEq

/-- `STREAM_TYPES` (`tap.py` line 10): the empty list — the import of
`tap_channeldock.streams` is commented out (`tap.py` line 8) and no stream
class is registered. -/
def STREAM_TYPES : List StreamType := []

/-- `TapChanneldock.discover_streams` (`tap.py` lines 49-52):
`[stream_class(tap=self) for stream_class in STREAM_TYPES]`. -/
def discover_streams (_cfg : Config) : List StreamType :=
  STREAM_TYPES.map (fun s => s)

/-- **C2** — For every parsed page response mapping and current cursor: if
the located count field (`products_count`, defaulting to `0` when absent —
the key the code reads for every entity) is zero, or the located record
list (`products`, defaulting to `[]`) has length strictly less than the
declared page size `PAGE_SIZE = 50`, then `ChanneldockPaginator.get_next`
returns `None` and leaves the paginator state unchanged, so re-invoking it
with the same inputs yields the same result; otherwise it returns the
current cursor plus one. -/
theorem C2_get_next_termination (page : Int) (fields : List (String × Json))
    (xs : List Json)
    (hlist : (fields.lookup "products").getD (Json.arr []) = Json.arr xs) :
    (jsonEqInt ((fields.lookup "products_count").getD (Json.num 0)) 0 = true
        ∨ xs.length < PAGE_SIZE →
      ChanneldockPaginator_get_next page (some (Json.obj fields)) = (NextResult.done, page)
      ∧ ChanneldockPaginator_get_next
          (ChanneldockPaginator_get_next page (some (Json.obj fields))).2
          (some (Json.obj fields)) = (NextResult.done, page))
    ∧ (jsonEqInt ((fields.lookup "products_count").getD (Json.num 0)) 0 = false →
        ¬ xs.length < PAGE_SIZE →
      ChanneldockPaginator_get_next page (some (Json.obj fields))
        = (NextResult.next (page + 1), page + 1)) := by
  have hlen : pyLen ((fields.lookup "products").getD (Json.arr []))
      = some xs.length := by rw [hlist]; rfl
  constructor
  · rintro (h | h)
    · constructor <;> simp [ChanneldockPaginator_get_next, h]
    · by_cases hc : jsonEqInt ((fields.lookup "products_count").getD (Json.num 0)) 0 = true
      · constructor <;> simp [ChanneldockPaginator_get_next, hc]
      · constructor <;> simp [ChanneldockPaginator_get_next, hc, hlen, h]
  · intro hc hlt
    simp [ChanneldockPaginator_get_next, hc, hlen, hlt]

/-- Witness for `C2_get_next_termination`: a full page (50 records,
nonzero count) on cursor 1 advances to page 2. -/
theorem C2_witness :
    ChanneldockPaginator_get_next 1
      (some (Json.obj [("products_count", Json.num 120),
        ("products", Json.arr (List.replicate 50 (Json.num 1)))]))
      = (NextResult.next (1 + 1), 1 + 1) :=
  (C2_get_next_termination 1
    [("products_count", Json.num 120),
     ("products", Json.arr (List.replicate 50 (Json.num 1)))]
    (List.replicate 50 (Json.num 1)) rfl).2 rfl (by decide)

/-- **C5**, counterexample — the claim says a body that parses to a shape
in which neither a count field nor a record list is identifiable makes
`get_next` return `None`; but a body that parses to a JSON *list* (not a
mapping) skips the `isinstance(data, dict)` block entirely and pagination
continues: at cursor 1 the code returns page 2, not `None`. -/
theorem C5_counterexample :
    (ChanneldockPaginator_get_next 1 (some (Json.arr []))).1 ≠ NextResult.done
    ∧ ChanneldockPaginator_get_next 1 (some (Json.arr []))
        = (NextResult.next 2, 2) := by
  constructor
  · decide
  · decide

/-- **C5** (amended) — an unparseable body ends pagination (`None`, state
unchanged, never raising); a *mapping* in which neither `products_count`
nor `products` is present also ends pagination (the defaults make the
count zero); but a body parsing to a non-mapping JSON value does not end
pagination: `get_next` returns the current cursor plus one. -/
theorem C5_get_next_malformed (page : Int) :
    ChanneldockPaginator_get_next page none = (NextResult.done, page)
    ∧ (∀ fields : List (String × Json),
        fields.lookup "products_count" = none → fields.lookup "products" = none →
        ChanneldockPaginator_get_next page (some (Json.obj fields))
          = (NextResult.done, page))
    ∧ (∀ data : Json, (∀ fs, data ≠ Json.obj fs) →
        ChanneldockPaginator_get_next page (some data)
          = (NextResult.next (page + 1), page + 1)) := by
  refine ⟨rfl, ?_, ?_⟩
  · intro fields h1 h2
    simp [ChanneldockPaginator_get_next, h1, h2, jsonEqInt]
  · intro data h
    cases data with
    | obj fs => exact absurd rfl (h fs)
    | null => rfl
    | bool b => rfl
    | num n => rfl
    | str s => rfl
    | arr xs => rfl

/-- Witness for `C5_get_next_malformed`: a mapping with neither key ends
pagination at cursor 3. -/
theorem C5_witness :
    ChanneldockPaginator_get_next 3 (some (Json.obj [("status", Json.str "ok")]))
      = (NextResult.done, 3) :=
  (C5_get_next_malformed 3).2.1 [("status", Json.str "ok")] rfl rfl

/-- **C6** — For every page body: an unparseable body yields zero records
and does not raise (`parse_response` logs and returns), and a mapping
whose `"response"` field equals the sentinel `"error"` likewise yields
zero records, reporting the carried `"message"` (default
`"Unknown error"`) instead of raising. -/
theorem C6_parse_response_errors (rf : Option String)
    (fs : List (String × Json)) :
    parse_response rf none = ParseResult.decodeError
    ∧ recordsOf (parse_response rf none) = []
    ∧ (fs.lookup "response" = some (Json.str "error") →
        parse_response rf (some (Json.obj fs))
          = ParseResult.apiError ((fs.lookup "message").getD (Json.str "Unknown error"))
        ∧ recordsOf (parse_response rf (some (Json.obj fs))) = []) := by
  refine ⟨rfl, rfl, ?_⟩
  intro herr
  have : parse_response rf (some (Json.obj fs))
      = ParseResult.apiError ((fs.lookup "message").getD (Json.str "Unknown error")) := by
    simp [parse_response, herr, jsonEqStr]
  exact ⟨this, by rw [this]; rfl⟩

/-- Witness for `C6_parse_response_errors`: the error page
`{"response": "error", "message": "x"}` is reported as an API error
carrying `"x"`. -/
theorem C6_witness :
    parse_response (some "products")
      (some (Json.obj [("response", Json.str "error"), ("message", Json.str "x")]))
      = ParseResult.apiError (Json.str "x")
    ∧ recordsOf (parse_response (some "products")
        (some (Json.obj [("response", Json.str "error"), ("message", Json.str "x")]))) = [] :=
  (C6_parse_response_errors (some "products")
    [("response", Json.str "error"), ("message", Json.str "x")]).2.2 rfl

/-- **C8** — the retry backoff wait sequence yields the `n`-th element of
the fixed table `[30, 60, 120, 240]` for `n < 4` and yields `240` (the
last, largest element) for every `n ≥ 4`: it caps rather than growing
unbounded. -/
theorem C8_backoff_wait_caps (n : Nat) :
    (n < 4 → backoff_wait_generator n = backoff_wait_times.getD n 0)
    ∧ (4 ≤ n → backoff_wait_generator n = 240) := by
  constructor
  · intro h
    interval_cases n <;> rfl
  · intro h
    exact List.getD_eq_default _ _ h

/-- Witness for `C8_backoff_wait_caps`: the third wait is 120 s and the
seventh is the capped 240 s. -/
theorem C8_witness :
    backoff_wait_generator 2 = backoff_wait_times.getD 2 0
    ∧ backoff_wait_generator 6 = 240 :=
  ⟨(C8_backoff_wait_caps 2).1 (by decide), (C8_backoff_wait_caps 6).2 (by decide)⟩

/-- **C10** — `TapChanneldock.discover_streams` returns the empty list for
every configuration: `STREAM_TYPES` is empty (the streams import is
commented out), so no defined entity is ever instantiated through the
tap's public interface. -/
theorem C10_discover_streams_empty (cfg : Config) :
    discover_streams cfg = [] ∧ STREAM_TYPES = [] :=
  ⟨rfl, rfl⟩

/-- Association-list lookup distributes over append, preferring the first
list. -/
theorem lookup_append {β : Type} (k : String) (l1 l2 : List (String × β)) :
    List.lookup k (l1 ++ l2) = (List.lookup k l1).or (List.lookup k l2) := by
  induction l1 with
  | nil => simp
  | cons p rest ih =>
    obtain ⟨a, b⟩ := p
    by_cases h : k = a
    · simp [List.lookup, h]
    · have hb : (k == a) = false := beq_eq_false_iff_ne.mpr h
      simp [List.lookup, hb, ih]

/-- A truthy optional string is that (nonempty) string. -/
theorem truthy_some {o : Option String} {s : String} (h : truthy o = some s) :
    o = some s ∧ s ≠ "" := by
  cases o with
  | none => simp [truthy] at h
  | some t =>
    by_cases ht : t = ""
    · simp [truthy, ht] at h
    · simp [truthy, ht] at h
      exact ⟨by rw [h], h ▸ ht⟩

/-- A concrete configuration with no optional keys set. -/
def cfg0 : Config :=
  { api_key := "k", api_secret := "s", start_date := none, delivery_type := none }

/-- **C1**, counterexample — the claim says all pages of one incremental
sync carry an identical upper-bound filter equal to the "now" captured at
sync start; but `get_url_params` re-reads the wall clock on every page, so
a two-page products sync whose pages are built five seconds apart sends
two different `end_date` values — page 2's differs from the sync-start
reading. -/
theorem C1_counterexample :
    ¬ ∀ ps ∈ products_sync_page_params cfg0 none
        ["2024-01-01 00:00:00", "2024-01-01 00:00:05"],
      List.lookup "end_date" ps = some (Param.pstr "2024-01-01 00:00:00") := by
  decide

/-- **C1** (amended) — the upper-bound filter value sent with a page's
request equals the "now" reading captured when *that page's* parameters
are built (products `end_date`, orders `updated_at_to`): the code
re-captures the clock on every page rather than once per sync, so pages
built at different clock readings carry different upper bounds.  The
deliveries stream sends no upper-bound parameter at all. -/
theorem C1_upper_bound_per_page (cfg : Config) (bm : Option String)
    (tok : Option Int) (now : String) :
    List.lookup "end_date" (ProductsStream_get_url_params cfg bm tok now)
      = some (Param.pstr now)
    ∧ List.lookup "updated_at_to" (OrdersStream_get_url_params bm tok now)
      = some (Param.pstr now)
    ∧ List.lookup "end_date" (DeliveriesStream_get_url_params cfg bm tok) = none
    ∧ List.lookup "updated_at_to" (DeliveriesStream_get_url_params cfg bm tok) = none := by
  refine ⟨?_, ?_, ?_, ?_⟩
  · unfold ProductsStream_get_url_params ChanneldockStream_get_url_params
    cases hsd : truthy cfg.start_date <;> cases hb : truthy bm <;>
      simp [hsd, hb, truthy, lookup_append, List.lookup]
  · unfold OrdersStream_get_url_params
    cases hb : truthy bm <;> simp [hb, lookup_append, List.lookup]
  · unfold DeliveriesStream_get_url_params
    cases hb : truthy bm <;> cases hdt : truthy cfg.delivery_type <;>
      simp [hb, hdt, lookup_append, List.lookup]
  · unfold DeliveriesStream_get_url_params
    cases hb : truthy bm <;> cases hdt : truthy cfg.delivery_type <;>
      simp [hb, hdt, lookup_append, List.lookup]

/-- **C9** — on a sync with no prior bookmark (the singer-sdk bookmark
accessor returns `None`), the lower-bound filter parameter is omitted from
the built request parameters: no `start_date` for products, no
`updated_at_from` for orders, no `updated_at` for deliveries. -/
theorem C9_no_bookmark_omits_lower_bound (cfg : Config) (tok : Option Int)
    (now : String) :
    List.lookup "start_date" (ProductsStream_get_url_params cfg none tok now) = none
    ∧ List.lookup "updated_at_from" (OrdersStream_get_url_params none tok now) = none
    ∧ List.lookup "updated_at" (DeliveriesStream_get_url_params cfg none tok) = none := by
  refine ⟨?_, ?_, ?_⟩
  · unfold ProductsStream_get_url_params ChanneldockStream_get_url_params
    cases hsd : truthy cfg.start_date <;>
      simp [hsd, truthy, lookup_append, List.lookup]
  · unfold OrdersStream_get_url_params
    simp [truthy, lookup_append, List.lookup]
  · unfold DeliveriesStream_get_url_params
    cases hdt : truthy cfg.delivery_type <;>
      simp [hdt, truthy, lookup_append, List.lookup]

/-- On a non-429, non-5xx, non-4xx status the status checks fall through
without raising and without sleeping further. -/
theorem statusChecks_ok (resp : HttpResponse) (now : Int) (sl : List Rat)
    (h1 : 200 ≤ resp.status) (h2 : resp.status < 300) :
    statusChecks resp now sl = { sleeps := sl, outcome := Outcome.ok } := by
  unfold statusChecks
  rw [if_neg (by omega : ¬ resp.status = 429),
    if_neg (by omega : ¬ (500 ≤ resp.status ∧ resp.status < 600)),
    if_neg (by omega : ¬ (400 ≤ resp.status ∧ resp.status < 500))]

/-- On a 5xx status the status checks raise `RetriableAPIError` without
sleeping further. -/
theorem statusChecks_5xx (resp : HttpResponse) (now : Int) (sl : List Rat)
    (h1 : 500 ≤ resp.status) (h2 : resp.status < 600) :
    statusChecks resp now sl = { sleeps := sl, outcome := Outcome.retry } := by
  unfold statusChecks
  rw [if_neg (by omega : ¬ resp.status = 429), if_pos ⟨h1, h2⟩]

/-- On a 4xx status other than 429 the status checks raise
`FatalAPIError` without sleeping further. -/
theorem statusChecks_4xx (resp : HttpResponse) (now : Int) (sl : List Rat)
    (h1 : 400 ≤ resp.status) (h2 : resp.status < 500) (h3 : resp.status ≠ 429) :
    statusChecks resp now sl = { sleeps := sl, outcome := Outcome.fatal } := by
  unfold statusChecks
  rw [if_neg h3, if_neg (by omega : ¬ (500 ≤ resp.status ∧ resp.status < 600)),
    if_pos ⟨h1, h2⟩]

/-- When the remaining-quota header is absent, `validate_response` is the
fixed floor sleep followed by the status checks. -/
theorem validate_no_remaining (resp : HttpResponse) (now : Int)
    (h : getHeader resp "X-RateLimit-Remaining" = none) :
    validate_response resp now = statusChecks resp now [REQUEST_DELAY_SECONDS] := by
  unfold validate_response
  rw [h]
  rfl

/-- **C3** — `validate_response` classifies statuses: a 2xx response
raises no error (OK), a 5xx response raises a retriable error with no
controller-side wait beyond the fixed floor, and a 4xx response other
than 429 raises a fatal error.  (The hypothesis is spec §6's inbound
interface: `X-RateLimit-Remaining`, when present and nonempty, is an
integer string — otherwise Python's `int()` would raise out of the
controller; the floor-only sleeps statement is isolated by the quota
header being absent, its extra delay being the separate quota-slowdown
clause.) -/
theorem C3_validate_status_classification (resp : HttpResponse) (now : Int)
    (hok : ∀ s : String, getHeader resp "X-RateLimit-Remaining" = some s →
      s ≠ "" → (pyInt s).isSome = true) :
    (200 ≤ resp.status → resp.status < 300 →
      (validate_response resp now).outcome = Outcome.ok)
    ∧ (500 ≤ resp.status → resp.status < 600 →
      (validate_response resp now).outcome = Outcome.retry)
    ∧ (400 ≤ resp.status → resp.status < 500 → resp.status ≠ 429 →
      (validate_response resp now).outcome = Outcome.fatal)
    ∧ (getHeader resp "X-RateLimit-Remaining" = none →
        500 ≤ resp.status → resp.status < 600 →
      (validate_response resp now).sleeps = [REQUEST_DELAY_SECONDS]) := by
  have main : ∃ sl, validate_response resp now = statusChecks resp now sl := by
    unfold validate_response
    cases htr : truthy (getHeader resp "X-RateLimit-Remaining") with
    | none => exact ⟨_, rfl⟩
    | some s =>
      obtain ⟨hh, hs⟩ := truthy_some htr
      obtain ⟨r, hr⟩ := Option.isSome_iff_exists.mp (hok s hh hs)
      refine ⟨if r < 100 then [REQUEST_DELAY_SECONDS] ++ [5]
        else if r < 50 then [REQUEST_DELAY_SECONDS] ++ [30]
        else [REQUEST_DELAY_SECONDS], ?_⟩
      simp only [hr]
  obtain ⟨sl, hsl⟩ := main
  refine ⟨?_, ?_, ?_, ?_⟩
  · intro h1 h2
    rw [hsl, statusChecks_ok resp now sl h1 h2]
  · intro h1 h2
    rw [hsl, statusChecks_5xx resp now sl h1 h2]
  · intro h1 h2 h3
    rw [hsl, statusChecks_4xx resp now sl h1 h2 h3]
  · intro hnone h1 h2
    rw [validate_no_remaining resp now hnone,
      statusChecks_5xx resp now _ h1 h2]

/-- Witness for `C3_validate_status_classification`: a bare 503 response
signals RETRY after only the floor delay. -/
theorem C3_witness :
    (validate_response ⟨503, []⟩ 0).outcome = Outcome.retry
    ∧ (validate_response ⟨503, []⟩ 0).sleeps = [REQUEST_DELAY_SECONDS] :=
  ⟨(C3_validate_status_classification ⟨503, []⟩ 0
      (fun _ h _ => Option.noConfusion h)).2.1 (by decide) (by decide),
   (C3_validate_status_classification ⟨503, []⟩ 0
      (fun _ h _ => Option.noConfusion h)).2.2.2 rfl (by decide) (by decide)⟩

/-- **C4** — the claim says a remaining quota below the critical threshold
50 adds a 30-second delay; but in the source the `elif remaining < 50`
arm is shadowed by the preceding `if remaining < 100`, so it is
unreachable: at `X-RateLimit-Remaining: 40` the controller sleeps the
floor plus 5 seconds, not 30. -/
theorem C4_critical_delay_shadowed :
    validate_response ⟨200, [("X-RateLimit-Remaining", "40")]⟩ 0
      = { sleeps := [REQUEST_DELAY_SECONDS, 5], outcome := Outcome.ok }
    ∧ (5 : Rat) ≠ 30 := by
  constructor
  · rfl
  · decide

/-- **C7** — on a 429 response (quota header isolated as absent): when
`X-RateLimit-Reset` is present and parses as an integer `r`, the
controller sleeps `r` minus the current time, clamped to at most 3600
seconds, before raising the retriable error; when the header is missing
or unparseable it sleeps the fixed default 60 seconds instead. -/
theorem C7_rate_limit_reset_wait (resp : HttpResponse) (now r : Int)
    (s : String) (h429 : resp.status = 429)
    (hrem : getHeader resp "X-RateLimit-Remaining" = none) :
    (getHeader resp "X-RateLimit-Reset" = some s → pyInt s = some r → now < r →
      validate_response resp now
        = { sleeps := [REQUEST_DELAY_SECONDS, ((min (r - now) 3600 : Int) : Rat)],
            outcome := Outcome.retry })
    ∧ (getHeader resp "X-RateLimit-Reset" = none →
      validate_response resp now
        = { sleeps := [REQUEST_DELAY_SECONDS, 60], outcome := Outcome.retry })
    ∧ (getHeader resp "X-RateLimit-Reset" = some s → pyInt s = none →
      validate_response resp now
        = { sleeps := [REQUEST_DELAY_SECONDS, 60], outcome := Outcome.retry }) := by
  have hv := validate_no_remaining resp now hrem
  refine ⟨?_, ?_, ?_⟩
  · intro hreset hpi hlt
    have hs : s ≠ "" := by
      intro h
      rw [h, show pyInt "" = none from rfl] at hpi
      exact Option.noConfusion hpi
    have ht : truthy (getHeader resp "X-RateLimit-Reset") = some s := by
      rw [hreset]; simp [truthy, hs]
    rw [hv]
    unfold statusChecks
    rw [if_pos h429]
    simp only [ht, hpi]
    rw [if_pos (by omega : r - now > 0)]
    rfl
  · intro hreset
    have ht : truthy (getHeader resp "X-RateLimit-Reset") = none := by
      rw [hreset]; rfl
    rw [hv]
    unfold statusChecks
    rw [if_pos h429]
    simp only [ht]
    rfl
  · intro hreset hpi
    rw [hv]
    unfold statusChecks
    rw [if_pos h429]
    by_cases hs : s = ""
    · have ht : truthy (getHeader resp "X-RateLimit-Reset") = none := by
        rw [hreset, hs]; rfl
      simp only [ht]
      rfl
    · have ht : truthy (getHeader resp "X-RateLimit-Reset") = some s := by
        rw [hreset]; simp [truthy, hs]
      simp only [ht, hpi]
      rfl

/-- Witness for `C7_rate_limit_reset_wait`: a 429 with the quota reset 120
seconds in the future sleeps the floor plus the clamped 120-second wait
and signals RETRY. -/
theorem C7_witness :
    validate_response { status := 429, headers := [("X-RateLimit-Reset", "1120")] } 1000
      = { sleeps := [REQUEST_DELAY_SECONDS, ((min ((1120 : Int) - 1000) 3600 : Int) : Rat)],
          outcome := Outcome.retry } :=
  (C7_rate_limit_reset_wait
      { status := 429, headers := [("X-RateLimit-Reset", "1120")] }
      1000 1120 "1120" rfl (by decide)).1 rfl (by decide) (by decide)
